import Mathlib

/-!
Verification of the rr Monkeypatcher (src/Monkeypatcher.h).

The repository provides the class declaration `Monkeypatcher` in
src/Monkeypatcher.h; the member-function bodies (Monkeypatcher.cc) are not
part of the visible sources, except for `is_syscallbuf_excluded_instruction`
and the constructors, which are defined inline in the header.  The data model
below is a direct shallow embedding of the header's member variables;
the operation bodies that are missing are modelled from the specification
(sections 4.1-4.6) and are marked as such in their doc comments.

Tracee addresses (`remote_ptr`, `remote_code_ptr`) are modelled as natural
numbers, with 0 playing the role of the null pointer (the default-constructed
`remote_ptr`).  Tracee memory is a total function from addresses to bytes.
-/

namespace RR

/-- Tracee memory: write a list of bytes at address `addr`, leaving all other
addresses unchanged. -/
def writeBytes (mem : Nat → Nat) (addr : Nat) (bytes : List Nat) : Nat → Nat :=
  fun a => if addr ≤ a ∧ a - addr < bytes.length then bytes.getD (a - addr) 0 else mem a

/-- Tracee memory: read `len` bytes starting at address `addr`. -/
def readBytes (mem : Nat → Nat) (addr len : Nat) : List Nat :=
  (List.range len).map fun i => mem (addr + i)

/-- The tracee as seen by the patcher: an instruction pointer and the contents
of its memory. -/
structure Tracee where
  ip : Nat
  mem : Nat → Nat

/-- Modelled from the spec: a Patch Catalog entry (`syscall_patch_hook` comes
from preload/preload_interface.h, which is not among the visible sources).
Section 3 describes it as an opaque byte signature to match at/after a syscall
instruction, plus the data needed to construct the redirect stub; we carry the
signature and the redirect code bytes. -/
structure syscall_patch_hook where
  pattern : List Nat
  stub_code : List Nat
deriving DecidableEq

/-- One page allocated to hold extended jumps (src/Monkeypatcher.h lines
89-93): a start address and a running allocation offset; the constructor
takes the address and sets `allocated` to 0 (here creation happens inside
`allocate_stub`, which immediately bump-allocates the request from it). -/
structure ExtendedJumpPage where
  addr : Nat
  allocated : Nat
deriving DecidableEq

/-- The patching state, one instance per tracee address space: a direct
embedding of the member variables of class `Monkeypatcher`
(src/Monkeypatcher.h lines 85-123). -/
structure Monkeypatcher where
  x86_sysenter_vsyscall : Nat
  extended_jump_pages : List ExtendedJumpPage
  syscall_hooks : List syscall_patch_hook
  tried_to_patch_syscall_addresses : Finset Nat
  stub_buffer : Nat
  stub_buffer_end : Nat
  syscall_hook_trampoline : Nat
  stub_buffer_allocated : Nat
deriving DecidableEq

/-- The default constructor `Monkeypatcher() : stub_buffer_allocated(0) {}`
(src/Monkeypatcher.h line 39): the vector and set members default-construct
empty, the `remote_ptr` members default-construct null (modelled as 0). -/
def Monkeypatcher.initial : Monkeypatcher :=
  { x86_sysenter_vsyscall := 0
    extended_jump_pages := []
    syscall_hooks := []
    tried_to_patch_syscall_addresses := ∅
    stub_buffer := 0
    stub_buffer_end := 0
    syscall_hook_trampoline := 0
    stub_buffer_allocated := 0 }

/-- Direct embedding of src/Monkeypatcher.h lines 101-103:
`return p >= syscall_hook_trampoline && p < stub_buffer_end;`. -/
def Monkeypatcher.is_syscallbuf_excluded_instruction (m : Monkeypatcher) (p : Nat) : Bool :=
  decide (m.syscall_hook_trampoline ≤ p) && decide (p < m.stub_buffer_end)

/-- The capacity of the primary stub buffer, `stub_buffer_end - stub_buffer`. -/
def Monkeypatcher.stubCapacity (m : Monkeypatcher) : Nat :=
  m.stub_buffer_end - m.stub_buffer

/-- Modelled from the spec: section 4.3.  `init_dynamic_syscall_patching`
(declared at src/Monkeypatcher.h lines 66-70, body missing) stores the Patch
Catalog read from the preload library and the three externally supplied
addresses: primary stub-buffer bounds and the hook trampoline entry.  In the
model the catalog list is passed directly instead of being read from tracee
memory via a count and a remote pointer. -/
def Monkeypatcher.init_dynamic_syscall_patching (m : Monkeypatcher)
    (hooks : List syscall_patch_hook) (buf bufEnd tramp : Nat) : Monkeypatcher :=
  { m with
    syscall_hooks := hooks
    stub_buffer := buf
    stub_buffer_end := bufEnd
    syscall_hook_trampoline := tramp }

/-- Result of a stub allocation: the updated patcher, the allocated pointer
(none on failure), and whether a fresh Extended Jump Page was mapped (which
makes the caller record one mapping operation in the trace). -/
structure AllocOutcome where
  patcher : Monkeypatcher
  result : Option Nat
  mappedNewPage : Bool

/-- Modelled from the spec: section 4.5.  `allocate_stub` (declared at
src/Monkeypatcher.h line 76, body missing) returns null if no pool was
configured; bump-allocates from the primary stub buffer when the remaining
capacity suffices; otherwise maps a fresh Extended Jump Page, appends it to
the page list and bump-allocates the request from it.  The address of a
freshly mapped page comes from the kernel; the model receives it as the
`freshPage` argument, `none` meaning the mapping failed. -/
def Monkeypatcher.allocate_stub (m : Monkeypatcher) (freshPage : Option Nat)
    (bytes : Nat) : AllocOutcome :=
  if m.stub_buffer = 0 then ⟨m, none, false⟩
  else if m.stub_buffer_allocated + bytes ≤ m.stubCapacity then
    ⟨{ m with stub_buffer_allocated := m.stub_buffer_allocated + bytes },
      some (m.stub_buffer + m.stub_buffer_allocated), false⟩
  else
    match freshPage with
    | none => ⟨m, none, false⟩
    | some p =>
        ⟨{ m with extended_jump_pages := m.extended_jump_pages ++ [⟨p, bytes⟩] },
          some p, true⟩

/-- The length in bytes of the syscall instruction that precedes the stopped
instruction pointer (x86 `syscall` / `int 0x80` is two bytes). -/
def SYSCALL_INSTRUCTION_LENGTH : Nat := 2

/-- The size in bytes of the jump written back from a stub past the
overwritten call-site bytes (a five-byte rel32 jump). -/
def RETURN_JUMP_SIZE : Nat := 5

/-- Byte `k` (little-endian) of the natural number `n`. -/
def natByte (n k : Nat) : Nat := n / 256 ^ k % 256

/-- Modelled from the spec: the concrete encoding of jump instructions is
opaque input data (section 1); the model uses a five-byte encoding: an
opcode byte followed by the little-endian target address. -/
def jumpInsn (target : Nat) : List Nat :=
  [233, natByte target 0, natByte target 1, natByte target 2, natByte target 3]

/-- Modelled from the spec: section 4.4 step 6.  The stub written into the
allocated memory: the matched pattern's redirect code followed by the return
jump back past the overwritten bytes. -/
def stubBytesFor (hook : syscall_patch_hook) (resumeAddr : Nat) : List Nat :=
  hook.stub_code ++ jumpInsn resumeAddr

/-- Modelled from the spec: section 4.4 step 7.  The bytes written over the
syscall instruction and the matched following bytes: a jump to the stub,
padded with no-ops to the length of the overwritten region. -/
def callSitePatch (stubAddr regionLen : Nat) : List Nat :=
  jumpInsn stubAddr ++ List.replicate (regionLen - (jumpInsn stubAddr).length) 144

/-- Modelled from the spec: section 4.4 step 3.  Compare the bytes at and
after the stopped instruction pointer against every signature in the Patch
Catalog, in catalog order; the first structural match wins. -/
def matchHook (hooks : List syscall_patch_hook) (mem : Nat → Nat) (ip : Nat) :
    Option syscall_patch_hook :=
  hooks.find? fun h => decide (readBytes mem ip h.pattern.length = h.pattern)

/-- Result of a patch attempt: the updated patcher, the updated tracee, the
boolean success result, and the number of memory-mapping records appended to
the trace (section 4.4 step 9). -/
structure PatchOutcome where
  patcher : Monkeypatcher
  tracee : Tracee
  ok : Bool
  mappingRecords : Nat

/-- Modelled from the spec: section 4.4.  `try_patch_syscall` (declared at
src/Monkeypatcher.h line 64, body missing).  The tracee is stopped with its
instruction pointer at the instruction following the syscall instruction.
Step 1: fail with no side effect when the patch table was never initialized
or the address is already in the Attempt Ledger.  Step 2: insert the address
into the ledger unconditionally before any other work.  Steps 3-4: match the
following bytes against the catalog; on no match fail.  Steps 5-8: allocate a
stub sized for the redirect code plus a return jump, write the stub, overwrite
the call site with a jump to it, reset the instruction pointer to the start of
the patched syscall instruction, and succeed.  Step 9: one mapping record is
emitted when the allocation mapped a new page. -/
def Monkeypatcher.insertTried (m : Monkeypatcher) (a : Nat) : Monkeypatcher :=
  { m with tried_to_patch_syscall_addresses :=
      insert a m.tried_to_patch_syscall_addresses }

def Monkeypatcher.try_patch_syscall (m : Monkeypatcher) (t : Tracee)
    (freshPage : Option Nat) : PatchOutcome :=
  if m.stub_buffer = 0 ∨ t.ip ∈ m.tried_to_patch_syscall_addresses then
    ⟨m, t, false, 0⟩
  else
    match matchHook m.syscall_hooks t.mem t.ip with
    | none => ⟨m.insertTried t.ip, t, false, 0⟩
    | some hook =>
      match (m.insertTried t.ip).allocate_stub freshPage
          (hook.stub_code.length + RETURN_JUMP_SIZE) with
      | ⟨m2, none, mapped⟩ => ⟨m2, t, false, if mapped then 1 else 0⟩
      | ⟨m2, some stubAddr, mapped⟩ =>
        let callSite := t.ip - SYSCALL_INSTRUCTION_LENGTH
        let mem1 := writeBytes t.mem stubAddr (stubBytesFor hook (t.ip + hook.pattern.length))
        let mem2 := writeBytes mem1 callSite
          (callSitePatch stubAddr (SYSCALL_INSTRUCTION_LENGTH + hook.pattern.length))
        ⟨m2, ⟨callSite, mem2⟩, true, if mapped then 1 else 0⟩

/-- Modelled from the spec: section 4.1.  `patch_after_exec` (declared at
src/Monkeypatcher.h line 47, body missing) rewrites version-dependent vDSO
routines in tracee memory and records the architecture-specific fast-syscall
stub address; it touches neither the Attempt Ledger nor the Stub Memory Pool.
The concrete byte rewrites are external pattern data, received here as a list
of (address, bytes) writes. -/
def Monkeypatcher.patch_after_exec (m : Monkeypatcher) (t : Tracee)
    (vdsoPatches : List (Nat × List Nat)) (sysenterStub : Nat) :
    Monkeypatcher × Tracee :=
  ({ m with x86_sysenter_vsyscall := sysenterStub },
   ⟨t.ip, vdsoPatches.foldl (fun mm pr => writeBytes mm pr.1 pr.2) t.mem⟩)

/-- Modelled from the spec: section 4.2.  `patch_at_preload_init` (declared at
src/Monkeypatcher.h line 53, body missing) applies the patches deferred from
the post-exec hook, which rewrite tracee memory to reference the now-known
trampoline; again external pattern data, received as (address, bytes) writes. -/
def Monkeypatcher.patch_at_preload_init (m : Monkeypatcher) (t : Tracee)
    (patches : List (Nat × List Nat)) : Monkeypatcher × Tracee :=
  (m, ⟨t.ip, patches.foldl (fun mm pr => writeBytes mm pr.1 pr.2) t.mem⟩)

/-- Modelled from the spec: section 4.6.  `patch_after_mmap` (declared at
src/Monkeypatcher.h lines 82-83, body missing) applies library-specific
patches to a freshly mapped range; a no-op when the mapping matches no known
target.  The library-specific rewrites are external data, received as
(address, bytes) writes. -/
def Monkeypatcher.patch_after_mmap (m : Monkeypatcher) (t : Tracee)
    (start size offsetPages childFd : Nat)
    (patches : List (Nat × List Nat)) : Monkeypatcher × Tracee :=
  (m, ⟨t.ip, patches.foldl (fun mm pr => writeBytes mm pr.1 pr.2) t.mem⟩)

/-- One invocation of any of the patcher's operations, together with the
external inputs that invocation consumes. -/
inductive Op where
  | opPatchAfterExec (t : Tracee) (vdsoPatches : List (Nat × List Nat)) (sysenterStub : Nat)
  | opPatchAtPreloadInit (t : Tracee) (patches : List (Nat × List Nat))
  | opPatchAfterMmap (t : Tracee) (start size offsetPages childFd : Nat)
      (patches : List (Nat × List Nat))
  | opInitDynamic (hooks : List syscall_patch_hook) (buf bufEnd tramp : Nat)
  | opTryPatch (t : Tracee) (freshPage : Option Nat)
  | opAllocStub (freshPage : Option Nat) (bytes : Nat)

/-- Whether an operation is the one-shot dynamic-initialization call. -/
def Op.isInitDynamic : Op → Bool
  | .opInitDynamic _ _ _ _ => true
  | _ => false

/-- The effect of one operation on the patcher state. -/
def Monkeypatcher.applyOp (m : Monkeypatcher) : Op → Monkeypatcher
  | .opPatchAfterExec t v s => (m.patch_after_exec t v s).1
  | .opPatchAtPreloadInit t ps => (m.patch_at_preload_init t ps).1
  | .opPatchAfterMmap t a b c d ps => (m.patch_after_mmap t a b c d ps).1
  | .opInitDynamic hs b e tr => m.init_dynamic_syscall_patching hs b e tr
  | .opTryPatch t fp => (m.try_patch_syscall t fp).patcher
  | .opAllocStub fp n => (m.allocate_stub fp n).patcher

/-- The patcher state after a sequence of operations. -/
def Monkeypatcher.runOps (m : Monkeypatcher) (ops : List Op) : Monkeypatcher :=
  ops.foldl Monkeypatcher.applyOp m

/-- A patch attempt at address `a` is refused outright (section 4.4 step 1):
either the dynamic patch table was never initialized, or `a` is already in the
Attempt Ledger. -/
def Monkeypatcher.attemptBlocked (m : Monkeypatcher) (a : Nat) : Prop :=
  m.stub_buffer = 0 ∨ a ∈ m.tried_to_patch_syscall_addresses

/-- Run a sequence of `allocate_stub` requests (all from the primary buffer:
no fresh page is offered), collecting the returned pointers. -/
def Monkeypatcher.allocRun (m : Monkeypatcher) : List Nat → Monkeypatcher × List (Option Nat)
  | [] => (m, [])
  | b :: bs =>
    let o := m.allocate_stub none b
    let rest := o.patcher.allocRun bs
    (rest.1, o.result :: rest.2)

/-- The start offsets a bump allocator beginning at `a` hands out for a
sequence of request sizes. -/
def offsets (a : Nat) : List Nat → List Nat
  | [] => []
  | b :: bs => a :: offsets (a + b) bs

/-- The defaulted copy constructor `Monkeypatcher(const Monkeypatcher&)`
(src/Monkeypatcher.h line 40): a member-wise copy; every member is a value
type, so the copy shares no mutable state with the original. -/
def Monkeypatcher.copy (m : Monkeypatcher) : Monkeypatcher :=
  { x86_sysenter_vsyscall := m.x86_sysenter_vsyscall
    extended_jump_pages := m.extended_jump_pages
    syscall_hooks := m.syscall_hooks
    tried_to_patch_syscall_addresses := m.tried_to_patch_syscall_addresses
    stub_buffer := m.stub_buffer
    stub_buffer_end := m.stub_buffer_end
    syscall_hook_trampoline := m.syscall_hook_trampoline
    stub_buffer_allocated := m.stub_buffer_allocated }

/-- Two patcher instances (a parent and its copy) evolving side by side:
each operation is tagged with the instance it is applied to (`true` for the
first). -/
def applyTagged (ab : Monkeypatcher × Monkeypatcher) (x : Bool × Op) :
    Monkeypatcher × Monkeypatcher :=
  if x.1 then (ab.1.applyOp x.2, ab.2) else (ab.1, ab.2.applyOp x.2)

/-- Run a tagged operation sequence over a pair of patcher instances. -/
def runTagged (pr : Monkeypatcher × Monkeypatcher) (ops : List (Bool × Op)) :
    Monkeypatcher × Monkeypatcher :=
  ops.foldl applyTagged pr

/-- The operations of a tagged sequence aimed at the first instance. -/
def opsFor (b : Bool) (ops : List (Bool × Op)) : List Op :=
  (ops.filter fun x => x.1 == b).map fun x => x.2

/-- A sample Patch Catalog entry: signature "AA BB", 16 bytes of redirect
code (spec section 8, first scenario). -/
def patchDemoHook : syscall_patch_hook :=
  { pattern := [170, 187], stub_code := List.replicate 16 0 }

/-- A sample initialized patcher: one catalog entry, primary buffer at
address 1000 with capacity 64, trampoline at 2000. -/
def patchDemoPatcher : Monkeypatcher :=
  Monkeypatcher.initial.init_dynamic_syscall_patching [patchDemoHook] 1000 1064 2000

/-- A tracee stopped at address 100 whose following bytes are "AA BB"
(matching the sample catalog entry). -/
def matchedTracee : Tracee :=
  ⟨100, fun a => if a = 100 then 170 else if a = 101 then 187 else 0⟩

/-- A tracee stopped at address 100 whose following bytes are "CC DD"
(matching no catalog entry). -/
def unmatchedTracee : Tracee :=
  ⟨100, fun a => if a = 100 then 204 else if a = 101 then 221 else 0⟩

/-- A patcher whose stub region is configured: trampoline at 10, stub-region
end at 20. -/
def exclusionDemo : Monkeypatcher :=
  { Monkeypatcher.initial with syscall_hook_trampoline := 10, stub_buffer_end := 20 }

/-- The sample initialized patcher with one Extended Jump Page already
allocated. -/
def pagedPatcher : Monkeypatcher :=
  { patchDemoPatcher with extended_jump_pages := [⟨5000, 8⟩] }

/-- The operation `allocate_stub` never changes the Attempt Ledger. -/
theorem allocate_stub_tried (m : Monkeypatcher) (fp : Option Nat) (bytes : Nat) :
    (m.allocate_stub fp bytes).patcher.tried_to_patch_syscall_addresses =
      m.tried_to_patch_syscall_addresses := by
  unfold Monkeypatcher.allocate_stub
  split
  · rfl
  · split
    · rfl
    · split <;> rfl

/-- The operation `allocate_stub` never changes the primary buffer pointer. -/
theorem allocate_stub_stub_buffer (m : Monkeypatcher) (fp : Option Nat) (bytes : Nat) :
    (m.allocate_stub fp bytes).patcher.stub_buffer = m.stub_buffer := by
  unfold Monkeypatcher.allocate_stub
  split
  · rfl
  · split
    · rfl
    · split <;> rfl

/-- The operation `allocate_stub` only ever appends to the Extended Jump Page list. -/
theorem allocate_stub_pages (m : Monkeypatcher) (fp : Option Nat) (bytes : Nat) :
    ∃ tail, (m.allocate_stub fp bytes).patcher.extended_jump_pages =
      m.extended_jump_pages ++ tail := by
  unfold Monkeypatcher.allocate_stub
  split
  · exact ⟨[], by simp⟩
  · split
    · exact ⟨[], by simp⟩
    · split
      · exact ⟨[], by simp⟩
      · exact ⟨_, rfl⟩

/-- The patcher coming out of `try_patch_syscall` is the input patcher, the
input patcher with the address inserted into the ledger, or the latter as
further updated by one `allocate_stub` call. -/
theorem try_patch_patcher_eq (m : Monkeypatcher) (t : Tracee) (fp : Option Nat) :
    (m.try_patch_syscall t fp).patcher = m ∨
    (m.try_patch_syscall t fp).patcher = m.insertTried t.ip ∨
    ∃ hook : syscall_patch_hook, (m.try_patch_syscall t fp).patcher =
      ((m.insertTried t.ip).allocate_stub fp
        (hook.stub_code.length + RETURN_JUMP_SIZE)).patcher := by
  unfold Monkeypatcher.try_patch_syscall
  split
  · exact Or.inl rfl
  · split
    · exact Or.inr (Or.inl rfl)
    · rename_i hook heq0
      refine Or.inr (Or.inr ⟨hook, ?_⟩)
      split <;>
      · rename_i heq
        rw [heq]

/-- The operation `try_patch_syscall` never changes the primary buffer pointer. -/
theorem try_patch_stub_buffer (m : Monkeypatcher) (t : Tracee) (fp : Option Nat) :
    (m.try_patch_syscall t fp).patcher.stub_buffer = m.stub_buffer := by
  rcases try_patch_patcher_eq m t fp with h | h | ⟨hook, h⟩ <;> rw [h]
  · rfl
  · rw [allocate_stub_stub_buffer]
    rfl

/-- The operation `try_patch_syscall` only ever inserts into the Attempt Ledger. -/
theorem try_patch_tried_mono (m : Monkeypatcher) (t : Tracee) (fp : Option Nat) :
    m.tried_to_patch_syscall_addresses ⊆
      (m.try_patch_syscall t fp).patcher.tried_to_patch_syscall_addresses := by
  rcases try_patch_patcher_eq m t fp with h | h | ⟨hook, h⟩ <;> rw [h]
  · exact Finset.subset_insert _ _
  · rw [allocate_stub_tried]
    exact Finset.subset_insert _ _

/-- The operation `try_patch_syscall` only ever appends to the Extended Jump Page list. -/
theorem try_patch_pages (m : Monkeypatcher) (t : Tracee) (fp : Option Nat) :
    ∃ tail, (m.try_patch_syscall t fp).patcher.extended_jump_pages =
      m.extended_jump_pages ++ tail := by
  rcases try_patch_patcher_eq m t fp with h | h | ⟨hook, h⟩ <;> rw [h]
  · exact ⟨[], by simp⟩
  · exact ⟨[], by simp [Monkeypatcher.insertTried]⟩
  · simpa [Monkeypatcher.insertTried] using
      allocate_stub_pages (m.insertTried t.ip) fp
        (hook.stub_code.length + RETURN_JUMP_SIZE)

/-- A blocked attempt returns failure with no side effect at all: the patcher,
the tracee and the trace are returned untouched. -/
theorem try_patch_blocked (m : Monkeypatcher) (t : Tracee) (fp : Option Nat)
    (h : m.attemptBlocked t.ip) :
    m.try_patch_syscall t fp = ⟨m, t, false, 0⟩ := by
  unfold Monkeypatcher.try_patch_syscall
  exact if_pos h

/-- An unblocked attempt inserts its address into the Attempt Ledger on every
path (section 4.4 step 2). -/
theorem try_patch_inserts (m : Monkeypatcher) (t : Tracee) (fp : Option Nat)
    (h : ¬ m.attemptBlocked t.ip) :
    t.ip ∈ (m.try_patch_syscall t fp).patcher.tried_to_patch_syscall_addresses := by
  unfold Monkeypatcher.try_patch_syscall
  simp only [Monkeypatcher.attemptBlocked] at h
  rw [if_neg h]
  split
  · exact Finset.mem_insert_self _ _
  · rename_i hook heq0
    split <;>
    · rename_i heq
      have hh := allocate_stub_tried (m.insertTried t.ip) fp
        (hook.stub_code.length + RETURN_JUMP_SIZE)
      rw [heq] at hh
      dsimp only at hh
      rw [hh]
      exact Finset.mem_insert_self _ _

/-- After any patch attempt, the attempted address is blocked. -/
theorem try_patch_blocks (m : Monkeypatcher) (t : Tracee) (fp : Option Nat) :
    (m.try_patch_syscall t fp).patcher.attemptBlocked t.ip := by
  by_cases h : m.attemptBlocked t.ip
  · rw [try_patch_blocked m t fp h]
    exact h
  · exact Or.inr (try_patch_inserts m t fp h)

/-- No operation other than `init_dynamic_syscall_patching` changes the
primary stub-buffer pointer. -/
theorem applyOp_stub_buffer (m : Monkeypatcher) (op : Op)
    (h : op.isInitDynamic = false) :
    (m.applyOp op).stub_buffer = m.stub_buffer := by
  cases op with
  | opPatchAfterExec t v s => rfl
  | opPatchAtPreloadInit t ps => rfl
  | opPatchAfterMmap t a b c d ps => rfl
  | opInitDynamic hs b e tr => simp [Op.isInitDynamic] at h
  | opTryPatch t fp => exact try_patch_stub_buffer m t fp
  | opAllocStub fp n => exact allocate_stub_stub_buffer m fp n

/-- No operation removes an address from the Attempt Ledger. -/
theorem applyOp_tried_mono (m : Monkeypatcher) (op : Op) :
    m.tried_to_patch_syscall_addresses ⊆
      (m.applyOp op).tried_to_patch_syscall_addresses := by
  cases op with
  | opPatchAfterExec t v s => exact fun a ha => ha
  | opPatchAtPreloadInit t ps => exact fun a ha => ha
  | opPatchAfterMmap t a b c d ps => exact fun a ha => ha
  | opInitDynamic hs b e tr => exact fun a ha => ha
  | opTryPatch t fp => exact try_patch_tried_mono m t fp
  | opAllocStub fp n => exact (allocate_stub_tried m fp n) ▸ fun a ha => ha

/-- No operation removes or shrinks an Extended Jump Page: the page list only
ever grows by appending. -/
theorem applyOp_pages (m : Monkeypatcher) (op : Op) :
    ∃ tail, (m.applyOp op).extended_jump_pages = m.extended_jump_pages ++ tail := by
  cases op with
  | opPatchAfterExec t v s => exact ⟨[], by simp [Monkeypatcher.applyOp, Monkeypatcher.patch_after_exec]⟩
  | opPatchAtPreloadInit t ps => exact ⟨[], by simp [Monkeypatcher.applyOp, Monkeypatcher.patch_at_preload_init]⟩
  | opPatchAfterMmap t a b c d ps => exact ⟨[], by simp [Monkeypatcher.applyOp, Monkeypatcher.patch_after_mmap]⟩
  | opInitDynamic hs b e tr => exact ⟨[], by simp [Monkeypatcher.applyOp, Monkeypatcher.init_dynamic_syscall_patching]⟩
  | opTryPatch t fp => exact try_patch_pages m t fp
  | opAllocStub fp n => exact allocate_stub_pages m fp n

/-- Blocked-ness of an address survives every operation except a (re-)run of
dynamic initialization. -/
theorem applyOp_blocked (m : Monkeypatcher) (op : Op) (a : Nat)
    (hop : op.isInitDynamic = false) (h : m.attemptBlocked a) :
    (m.applyOp op).attemptBlocked a := by
  rcases h with h0 | hmem
  · exact Or.inl ((applyOp_stub_buffer m op hop).trans h0)
  · exact Or.inr (applyOp_tried_mono m op hmem)

/-- Running `runOps` without dynamic initialization preserves the stub-buffer
pointer. -/
theorem runOps_stub_buffer (ops : List Op) :
    ∀ m : Monkeypatcher, (∀ op ∈ ops, op.isInitDynamic = false) →
      (m.runOps ops).stub_buffer = m.stub_buffer := by
  induction ops with
  | nil => intro m _; rfl
  | cons op rest ih =>
      intro m hops
      have h1 : (Monkeypatcher.runOps (m.applyOp op) rest).stub_buffer =
          (m.applyOp op).stub_buffer :=
        ih (m.applyOp op) (fun o ho => hops o (List.mem_cons_of_mem _ ho))
      have h2 : (m.applyOp op).stub_buffer = m.stub_buffer :=
        applyOp_stub_buffer m op (hops op (List.mem_cons_self _ _))
      exact h1.trans h2

/-- Running `runOps` without dynamic initialization preserves blocked-ness. -/
theorem runOps_blocked (ops : List Op) :
    ∀ m : Monkeypatcher, ∀ a : Nat, (∀ op ∈ ops, op.isInitDynamic = false) →
      m.attemptBlocked a → (m.runOps ops).attemptBlocked a := by
  induction ops with
  | nil => intro m a _ h; exact h
  | cons op rest ih =>
      intro m a hops h
      exact ih (m.applyOp op) a (fun o ho => hops o (List.mem_cons_of_mem _ ho))
        (applyOp_blocked m op a (hops op (List.mem_cons_self _ _)) h)

/-- C5: for every patcher state with trampoline address T and stub-region
end E, `is_syscallbuf_excluded_instruction p` returns true exactly when
T <= p < E; it is true at T and at E-1 (whenever the region T..E is
nonempty), false at T-1 (whenever T has a predecessor) and at E, and false
everywhere when the patch table was never configured (T and E still null). -/
theorem exclusion_predicate_boundary (m : Monkeypatcher) (p : Nat) :
    (m.is_syscallbuf_excluded_instruction p = true ↔
      m.syscall_hook_trampoline ≤ p ∧ p < m.stub_buffer_end) ∧
    (m.syscall_hook_trampoline < m.stub_buffer_end →
      m.is_syscallbuf_excluded_instruction m.syscall_hook_trampoline = true ∧
      m.is_syscallbuf_excluded_instruction (m.stub_buffer_end - 1) = true) ∧
    (1 ≤ m.syscall_hook_trampoline →
      m.is_syscallbuf_excluded_instruction (m.syscall_hook_trampoline - 1) = false) ∧
    m.is_syscallbuf_excluded_instruction m.stub_buffer_end = false ∧
    (m.syscall_hook_trampoline = 0 ∧ m.stub_buffer_end = 0 →
      m.is_syscallbuf_excluded_instruction p = false) := by
  refine ⟨?_, ?_, ?_, ?_, ?_⟩ <;>
    simp [Monkeypatcher.is_syscallbuf_excluded_instruction] <;> omega

/-- C5 witness: the boundary facts evaluated on a patcher with trampoline 10
and stub-region end 20. -/
theorem exclusion_predicate_boundary_witness :
    exclusionDemo.is_syscallbuf_excluded_instruction 10 = true ∧
    exclusionDemo.is_syscallbuf_excluded_instruction 19 = true ∧
    exclusionDemo.is_syscallbuf_excluded_instruction 9 = false ∧
    exclusionDemo.is_syscallbuf_excluded_instruction 20 = false := by
  have h := exclusion_predicate_boundary exclusionDemo 10
  exact ⟨(h.2.1 (by decide)).1, (h.2.1 (by decide)).2, h.2.2.1 (by decide), h.2.2.2.1⟩

/-- C9: a freshly constructed Monkeypatcher is unconfigured: allocation
offset zero, ledger and page list empty, catalog empty, stub-buffer bounds
and trampoline null, and the exclusion predicate rejects every address. -/
theorem fresh_patcher_unconfigured (p : Nat) :
    Monkeypatcher.initial.stub_buffer_allocated = 0 ∧
    Monkeypatcher.initial.tried_to_patch_syscall_addresses = ∅ ∧
    Monkeypatcher.initial.extended_jump_pages = [] ∧
    Monkeypatcher.initial.syscall_hooks = [] ∧
    Monkeypatcher.initial.stub_buffer = 0 ∧
    Monkeypatcher.initial.stub_buffer_end = 0 ∧
    Monkeypatcher.initial.syscall_hook_trampoline = 0 ∧
    Monkeypatcher.initial.x86_sysenter_vsyscall = 0 ∧
    Monkeypatcher.initial.is_syscallbuf_excluded_instruction p = false := by
  refine ⟨rfl, rfl, rfl, rfl, rfl, rfl, rfl, rfl, ?_⟩
  simp [Monkeypatcher.initial, Monkeypatcher.is_syscallbuf_excluded_instruction]

/-- C1: after one patch attempt at an address, every subsequent attempt at
the same address — across any further run of patcher operations that does not
re-run dynamic initialization — returns failure and leaves the patcher state
(primary-buffer offset, Extended Jump Pages, ledger, catalog, configured
addresses) and the tracee untouched, regardless of the first call's outcome. -/
theorem try_patch_syscall_idempotent (m : Monkeypatcher) (t : Tracee)
    (fp : Option Nat) (ops : List Op)
    (hops : ∀ op ∈ ops, op.isInitDynamic = false)
    (t2 : Tracee) (fp2 : Option Nat) (hip : t2.ip = t.ip) :
    ((m.try_patch_syscall t fp).patcher.runOps ops).try_patch_syscall t2 fp2 =
      ⟨(m.try_patch_syscall t fp).patcher.runOps ops, t2, false, 0⟩ := by
  apply try_patch_blocked
  rw [hip]
  exact runOps_blocked ops _ t.ip hops (try_patch_blocks m t fp)

/-- C1 witness: a successful attempt at address 100 followed by an unrelated
allocation; the repeated attempt at 100 is the identity failure. -/
theorem try_patch_syscall_idempotent_witness :
    (((patchDemoPatcher.try_patch_syscall matchedTracee none).patcher.runOps
        [Op.opAllocStub none 8]).try_patch_syscall unmatchedTracee none) =
      ⟨(patchDemoPatcher.try_patch_syscall matchedTracee none).patcher.runOps
        [Op.opAllocStub none 8], unmatchedTracee, false, 0⟩ :=
  try_patch_syscall_idempotent patchDemoPatcher matchedTracee none
    [Op.opAllocStub none 8]
    (by intro op hop; rcases List.mem_singleton.mp hop with rfl; rfl)
    unmatchedTracee none rfl

/-- C2: on a patcher on which dynamic initialization has never run (any
operation history without it, starting from construction), a patch attempt
returns failure with the patcher and tracee untouched and no ledger
insertion, and every stub allocation returns null with the patcher
untouched. -/
theorem no_patching_before_initialization (ops : List Op)
    (hops : ∀ op ∈ ops, op.isInitDynamic = false) (t : Tracee)
    (fp fp2 : Option Nat) (bytes : Nat) :
    (Monkeypatcher.initial.runOps ops).try_patch_syscall t fp =
      ⟨Monkeypatcher.initial.runOps ops, t, false, 0⟩ ∧
    (Monkeypatcher.initial.runOps ops).allocate_stub fp2 bytes =
      ⟨Monkeypatcher.initial.runOps ops, none, false⟩ := by
  have h0 : (Monkeypatcher.initial.runOps ops).stub_buffer = 0 :=
    runOps_stub_buffer ops Monkeypatcher.initial hops
  constructor
  · exact try_patch_blocked _ t fp (Or.inl h0)
  · unfold Monkeypatcher.allocate_stub
    rw [if_pos h0]

/-- C2 witness: after an exec hook and a failed allocation on the fresh
patcher, a patch attempt and an allocation both fail without effect. -/
theorem no_patching_before_initialization_witness :
    (Monkeypatcher.initial.runOps
        [Op.opPatchAfterExec unmatchedTracee [] 7]).try_patch_syscall
        matchedTracee none =
      ⟨Monkeypatcher.initial.runOps [Op.opPatchAfterExec unmatchedTracee [] 7],
        matchedTracee, false, 0⟩ ∧
    (Monkeypatcher.initial.runOps
        [Op.opPatchAfterExec unmatchedTracee [] 7]).allocate_stub (some 4096) 16 =
      ⟨Monkeypatcher.initial.runOps [Op.opPatchAfterExec unmatchedTracee [] 7],
        none, false⟩ :=
  no_patching_before_initialization [Op.opPatchAfterExec unmatchedTracee [] 7]
    (by intro op hop; rcases List.mem_singleton.mp hop with rfl; rfl)
    matchedTracee none (some 4096) 16

/-- C3: on an initialized patcher, an attempt at a fresh address whose
following bytes match no catalog signature fails, records the address in the
ledger, and changes nothing else: the attempt's entire effect is the ledger
insertion, and every other component of the state is returned unchanged. -/
theorem unmatched_attempt_frame (m : Monkeypatcher) (t : Tracee) (fp : Option Nat)
    (hcfg : m.stub_buffer ≠ 0)
    (hnew : t.ip ∉ m.tried_to_patch_syscall_addresses)
    (hnomatch : matchHook m.syscall_hooks t.mem t.ip = none) :
    m.try_patch_syscall t fp = ⟨m.insertTried t.ip, t, false, 0⟩ ∧
    t.ip ∈ (m.try_patch_syscall t fp).patcher.tried_to_patch_syscall_addresses ∧
    (m.try_patch_syscall t fp).patcher.stub_buffer_allocated = m.stub_buffer_allocated ∧
    (m.try_patch_syscall t fp).patcher.extended_jump_pages = m.extended_jump_pages ∧
    (m.try_patch_syscall t fp).patcher.syscall_hooks = m.syscall_hooks ∧
    (m.try_patch_syscall t fp).patcher.stub_buffer = m.stub_buffer ∧
    (m.try_patch_syscall t fp).patcher.stub_buffer_end = m.stub_buffer_end ∧
    (m.try_patch_syscall t fp).patcher.syscall_hook_trampoline = m.syscall_hook_trampoline ∧
    (m.try_patch_syscall t fp).patcher.x86_sysenter_vsyscall = m.x86_sysenter_vsyscall := by
  have h : m.try_patch_syscall t fp = ⟨m.insertTried t.ip, t, false, 0⟩ := by
    unfold Monkeypatcher.try_patch_syscall
    rw [if_neg (by push_neg; exact ⟨hcfg, hnew⟩), hnomatch]
  refine ⟨h, ?_, ?_, ?_, ?_, ?_, ?_, ?_, ?_⟩ <;> rw [h] <;>
    simp [Monkeypatcher.insertTried]

/-- C3 witness: the unmatched scenario of spec section 8 (bytes "CC DD"):
the ledger gains address 100, the pool is untouched, the attempt fails. -/
theorem unmatched_attempt_frame_witness :
    patchDemoPatcher.try_patch_syscall unmatchedTracee none =
      ⟨patchDemoPatcher.insertTried unmatchedTracee.ip, unmatchedTracee, false, 0⟩ :=
  (unmatched_attempt_frame patchDemoPatcher unmatchedTracee none
    (by decide) (by decide) (by decide)).1

/-- C4: on an initialized patcher, an attempt at a fresh address whose
following bytes match a catalog signature, with a successful stub
allocation, succeeds: the call-site region (syscall instruction plus
matched bytes) is overwritten with a jump to the allocated stub, the stub
(redirect code plus return jump) is written at the allocated address, and
the tracee's instruction pointer is moved back to the start of the patched
syscall instruction, strictly before where it was. -/
theorem matched_attempt_success (m : Monkeypatcher) (t : Tracee) (fp : Option Nat)
    (hook : syscall_patch_hook) (stubAddr : Nat)
    (hcfg : m.stub_buffer ≠ 0)
    (hnew : t.ip ∉ m.tried_to_patch_syscall_addresses)
    (hmatch : matchHook m.syscall_hooks t.mem t.ip = some hook)
    (hip : SYSCALL_INSTRUCTION_LENGTH ≤ t.ip)
    (halloc : ((m.insertTried t.ip).allocate_stub fp
        (hook.stub_code.length + RETURN_JUMP_SIZE)).result = some stubAddr) :
    (m.try_patch_syscall t fp).ok = true ∧
    (m.try_patch_syscall t fp).tracee.ip = t.ip - SYSCALL_INSTRUCTION_LENGTH ∧
    (m.try_patch_syscall t fp).tracee.ip < t.ip ∧
    (m.try_patch_syscall t fp).tracee.mem =
      writeBytes
        (writeBytes t.mem stubAddr (stubBytesFor hook (t.ip + hook.pattern.length)))
        (t.ip - SYSCALL_INSTRUCTION_LENGTH)
        (callSitePatch stubAddr (SYSCALL_INSTRUCTION_LENGTH + hook.pattern.length)) ∧
    (m.try_patch_syscall t fp).patcher =
      ((m.insertTried t.ip).allocate_stub fp
        (hook.stub_code.length + RETURN_JUMP_SIZE)).patcher := by
  unfold Monkeypatcher.try_patch_syscall
  rw [if_neg (by push_neg; exact ⟨hcfg, hnew⟩), hmatch]
  split
  · rename_i heq
    exact absurd heq (by simp)
  · rename_i hook2 heq
    obtain rfl : hook = hook2 := Option.some_injective _ heq
    split
    · rename_i heq2
      rw [heq2] at halloc
      simp at halloc
    · rename_i heq2
      rw [heq2] at halloc
      dsimp only at halloc
      rcases Option.some_injective _ halloc with rfl
      refine ⟨rfl, rfl, ?_, rfl, ?_⟩
      · show t.ip - SYSCALL_INSTRUCTION_LENGTH < t.ip
        simp only [SYSCALL_INSTRUCTION_LENGTH] at hip ⊢
        omega
      · rw [heq2]

/-- C4 witness: the matched scenario of spec section 8 (bytes "AA BB",
capacity 64): the attempt succeeds, the stub lands at offset 0 of the
primary buffer (address 1000), and the instruction pointer moves back to the
syscall instruction at address 98. -/
theorem matched_attempt_success_witness :
    (patchDemoPatcher.try_patch_syscall matchedTracee none).ok = true ∧
    (patchDemoPatcher.try_patch_syscall matchedTracee none).tracee.ip =
      matchedTracee.ip - SYSCALL_INSTRUCTION_LENGTH ∧
    (patchDemoPatcher.try_patch_syscall matchedTracee none).tracee.ip <
      matchedTracee.ip ∧
    (patchDemoPatcher.try_patch_syscall matchedTracee none).tracee.mem =
      writeBytes
        (writeBytes matchedTracee.mem 1000
          (stubBytesFor patchDemoHook (matchedTracee.ip + patchDemoHook.pattern.length)))
        (matchedTracee.ip - SYSCALL_INSTRUCTION_LENGTH)
        (callSitePatch 1000
          (SYSCALL_INSTRUCTION_LENGTH + patchDemoHook.pattern.length)) ∧
    (patchDemoPatcher.try_patch_syscall matchedTracee none).patcher =
      ((patchDemoPatcher.insertTried matchedTracee.ip).allocate_stub none
        (patchDemoHook.stub_code.length + RETURN_JUMP_SIZE)).patcher :=
  matched_attempt_success patchDemoPatcher matchedTracee none patchDemoHook 1000
    (by decide) (by decide) (by decide) (by decide) (by decide)

/-- Every offset a bump allocator starting at `a` hands out is at least `a`. -/
theorem mem_offsets_ge (l : List Nat) : ∀ a x, x ∈ offsets a l → a ≤ x := by
  induction l with
  | nil => intro a x hx; simp [offsets] at hx
  | cons b bs ih =>
      intro a x hx
      simp only [offsets, List.mem_cons] at hx
      rcases hx with rfl | hx
      · exact Nat.le_refl _
      · exact Nat.le_trans (Nat.le_add_right a b) (ih (a + b) x hx)

/-- The ranges a bump allocator hands out are pairwise disjoint: each range
ends no later than every later range begins. -/
theorem offsets_zip_pairwise (l : List Nat) :
    ∀ a, List.Pairwise (fun x y => x.1 + x.2 ≤ y.1) ((offsets a l).zip l) := by
  induction l with
  | nil => intro a; simp [offsets]
  | cons b bs ih =>
      intro a
      simp only [offsets, List.zip_cons_cons]
      refine List.Pairwise.cons ?_ (ih (a + b))
      intro y hy
      exact Nat.le_trans (Nat.le_refl _)
        (mem_offsets_ge bs (a + b) y.1 (List.of_mem_zip hy).1)

/-- A run of requests that fits in the primary buffer all succeeds, returning
consecutive bump-allocated pointers and ending with the offset advanced by
the total. -/
theorem allocRun_sound (reqs : List Nat) :
    ∀ m : Monkeypatcher, m.stub_buffer ≠ 0 →
      m.stub_buffer_allocated + reqs.sum ≤ m.stubCapacity →
      (m.allocRun reqs).2 =
        (offsets (m.stub_buffer + m.stub_buffer_allocated) reqs).map some ∧
      (m.allocRun reqs).1.stub_buffer_allocated =
        m.stub_buffer_allocated + reqs.sum ∧
      (m.allocRun reqs).1.stub_buffer = m.stub_buffer ∧
      (m.allocRun reqs).1.stub_buffer_end = m.stub_buffer_end := by
  induction reqs with
  | nil => intro m h0 hfit; exact ⟨rfl, by simp [Monkeypatcher.allocRun], rfl, rfl⟩
  | cons b bs ih =>
      intro m h0 hfit
      have hsum : m.stub_buffer_allocated + (b + bs.sum) ≤ m.stubCapacity := by
        simpa [List.sum_cons] using hfit
      have hfitb : m.stub_buffer_allocated + b ≤ m.stubCapacity := by omega
      have halloc : m.allocate_stub none b =
          ⟨{ m with stub_buffer_allocated := m.stub_buffer_allocated + b },
            some (m.stub_buffer + m.stub_buffer_allocated), false⟩ := by
        unfold Monkeypatcher.allocate_stub
        rw [if_neg h0, if_pos hfitb]
      have hfit2 : ({ m with stub_buffer_allocated :=
            m.stub_buffer_allocated + b } : Monkeypatcher).stub_buffer_allocated
            + bs.sum ≤
          ({ m with stub_buffer_allocated :=
            m.stub_buffer_allocated + b } : Monkeypatcher).stubCapacity := by
        show m.stub_buffer_allocated + b + bs.sum ≤ m.stubCapacity
        omega
      have hrest := ih { m with stub_buffer_allocated :=
        m.stub_buffer_allocated + b } h0 hfit2
      refine ⟨?_, ?_, ?_, ?_⟩
      · show (m.allocate_stub none b).result ::
            ((m.allocate_stub none b).patcher.allocRun bs).2 = _
        rw [halloc]
        dsimp only
        rw [hrest.1]
        simp only [offsets, List.map_cons]
        rw [show m.stub_buffer + (m.stub_buffer_allocated + b) =
          m.stub_buffer + m.stub_buffer_allocated + b by omega]
      · show ((m.allocate_stub none b).patcher.allocRun bs).1.stub_buffer_allocated = _
        rw [halloc]
        dsimp only
        rw [hrest.2.1]
        show m.stub_buffer_allocated + b + bs.sum = m.stub_buffer_allocated + (b :: bs).sum
        simp [List.sum_cons]
        omega
      · show ((m.allocate_stub none b).patcher.allocRun bs).1.stub_buffer = _
        rw [halloc]
        dsimp only
        rw [hrest.2.2.1]
      · show ((m.allocate_stub none b).patcher.allocRun bs).1.stub_buffer_end = _
        rw [halloc]
        dsimp only
        rw [hrest.2.2.2]

/-- C6: on a configured pool, a sequence of allocation requests whose sizes
(plus what is already allocated) fit in the primary buffer's capacity all
succeed, returning consecutive bump-allocated pointers whose ranges are
pairwise disjoint; and a request exceeding the remaining primary capacity
creates exactly one new Extended Jump Page sized to satisfy it, appends it
to the page list, and satisfies the request from it. -/
theorem allocator_correctness (m : Monkeypatcher) (hcfg : m.stub_buffer ≠ 0) :
    (∀ reqs : List Nat,
      m.stub_buffer_allocated + reqs.sum ≤ m.stubCapacity →
      (m.allocRun reqs).2 =
        (offsets (m.stub_buffer + m.stub_buffer_allocated) reqs).map some ∧
      List.Pairwise (fun x y => x.1 + x.2 ≤ y.1)
        ((offsets (m.stub_buffer + m.stub_buffer_allocated) reqs).zip reqs)) ∧
    (∀ bytes p : Nat,
      m.stubCapacity < m.stub_buffer_allocated + bytes →
      m.allocate_stub (some p) bytes =
        ⟨{ m with extended_jump_pages := m.extended_jump_pages ++ [⟨p, bytes⟩] },
          some p, true⟩) := by
  constructor
  · intro reqs hfit
    exact ⟨(allocRun_sound reqs m hcfg hfit).1, offsets_zip_pairwise reqs _⟩
  · intro bytes p hover
    unfold Monkeypatcher.allocate_stub
    rw [if_neg hcfg, if_neg (Nat.not_le.mpr hover)]

/-- C6 witness: requests of 16 and 8 bytes on the fresh 64-byte pool succeed
back to back at 1000 and 1016; a 200-byte request makes one new page. -/
theorem allocator_correctness_witness :
    ((patchDemoPatcher.allocRun [16, 8]).2 =
      (offsets (patchDemoPatcher.stub_buffer + patchDemoPatcher.stub_buffer_allocated)
        [16, 8]).map some ∧
     List.Pairwise (fun x y => x.1 + x.2 ≤ y.1)
       ((offsets (patchDemoPatcher.stub_buffer + patchDemoPatcher.stub_buffer_allocated)
         [16, 8]).zip [16, 8])) ∧
    patchDemoPatcher.allocate_stub (some 4096) 200 =
      ⟨{ patchDemoPatcher with extended_jump_pages :=
          patchDemoPatcher.extended_jump_pages ++ [⟨4096, 200⟩] }, some 4096, true⟩ := by
  have h := allocator_correctness patchDemoPatcher (by decide)
  exact ⟨h.1 [16, 8] (by decide), h.2 200 4096 (by decide)⟩

/-- C7: `allocate_stub` returns null exactly when no pool was configured, or
the primary buffer lacks capacity and no fresh page could be mapped; any
non-null result is either the next primary-buffer bump pointer or the start
of the freshly mapped page. -/
theorem allocate_stub_null_iff (m : Monkeypatcher) (fp : Option Nat) (bytes : Nat) :
    ((m.allocate_stub fp bytes).result = none ↔
      m.stub_buffer = 0 ∨
        (m.stubCapacity < m.stub_buffer_allocated + bytes ∧ fp = none)) ∧
    (∀ r : Nat, (m.allocate_stub fp bytes).result = some r →
      (r = m.stub_buffer + m.stub_buffer_allocated ∧
        m.stub_buffer_allocated + bytes ≤ m.stubCapacity) ∨
      fp = some r) := by
  unfold Monkeypatcher.allocate_stub
  split
  · rename_i h0
    refine ⟨by simp [h0], ?_⟩
    intro r hr
    simp at hr
  · rename_i h0
    split
    · rename_i hfit
      refine ⟨by simp [h0, Nat.not_lt.mpr hfit], ?_⟩
      intro r hr
      dsimp only at hr
      exact Or.inl ⟨(Option.some_injective _ hr).symm, hfit⟩
    · rename_i hnofit
      rcases fp with _ | p
      · refine ⟨by simp [h0, Nat.not_le.mp hnofit], ?_⟩
        intro r hr
        simp at hr
      · refine ⟨by simp [h0], ?_⟩
        intro r hr
        dsimp only at hr
        exact Or.inr (by rw [Option.some_injective _ hr])

/-- C7 witness: a 16-byte request on the fresh 64-byte pool is not null and
returns the primary bump pointer 1000. -/
theorem allocate_stub_null_iff_witness :
    ((patchDemoPatcher.allocate_stub none 16).result = none ↔
      patchDemoPatcher.stub_buffer = 0 ∨
        (patchDemoPatcher.stubCapacity <
            patchDemoPatcher.stub_buffer_allocated + 16 ∧
          (none : Option Nat) = none)) ∧
    ((1000 = patchDemoPatcher.stub_buffer + patchDemoPatcher.stub_buffer_allocated ∧
        patchDemoPatcher.stub_buffer_allocated + 16 ≤ patchDemoPatcher.stubCapacity) ∨
      (none : Option Nat) = some 1000) := by
  have h := allocate_stub_null_iff patchDemoPatcher none 16
  exact ⟨h.1, h.2 1000 (by decide)⟩

/-- C8: every operation of the patcher leaves the Attempt Ledger a superset
of what it was, only ever appends to the Extended Jump Page list, and leaves
every existing page (address and allocation offset) unchanged. -/
theorem state_monotonic (m : Monkeypatcher) (op : Op) :
    m.tried_to_patch_syscall_addresses ⊆
      (m.applyOp op).tried_to_patch_syscall_addresses ∧
    (∃ tail, (m.applyOp op).extended_jump_pages =
      m.extended_jump_pages ++ tail) ∧
    (∀ i, i < m.extended_jump_pages.length →
      (m.applyOp op).extended_jump_pages.get? i =
        m.extended_jump_pages.get? i) := by
  refine ⟨applyOp_tried_mono m op, applyOp_pages m op, ?_⟩
  rcases applyOp_pages m op with ⟨tail, heq⟩
  intro i hi
  rw [heq, List.get?_append hi]

/-- C8 witness: an oversized allocation on a patcher that already owns one
page keeps the ledger, appends the new page, and leaves page 0 unchanged. -/
theorem state_monotonic_witness :
    pagedPatcher.tried_to_patch_syscall_addresses ⊆
      (pagedPatcher.applyOp
        (Op.opAllocStub (some 6000) 200)).tried_to_patch_syscall_addresses ∧
    (∃ tail, (pagedPatcher.applyOp
        (Op.opAllocStub (some 6000) 200)).extended_jump_pages =
      pagedPatcher.extended_jump_pages ++ tail) ∧
    (pagedPatcher.applyOp (Op.opAllocStub (some 6000) 200)).extended_jump_pages.get? 0 =
      pagedPatcher.extended_jump_pages.get? 0 := by
  have h := state_monotonic pagedPatcher (Op.opAllocStub (some 6000) 200)
  exact ⟨h.1, h.2.1, h.2.2 0 (by decide)⟩

/-- A tagged run over a pair of instances is the independent product of the
runs of each instance's own operations: neither instance's evolution depends
on the other's. -/
theorem runTagged_independent (ops : List (Bool × Op)) :
    ∀ ab : Monkeypatcher × Monkeypatcher,
      runTagged ab ops =
        (ab.1.runOps (opsFor true ops), ab.2.runOps (opsFor false ops)) := by
  induction ops with
  | nil => intro ab; rfl
  | cons x rest ih =>
      intro ab
      by_cases hx : x.1 = true
      · have h1 : applyTagged ab x = (ab.1.applyOp x.2, ab.2) := by
          unfold applyTagged
          rw [if_pos hx]
        have h2 : opsFor true (x :: rest) = x.2 :: opsFor true rest := by
          simp [opsFor, List.filter_cons, hx]
        have h3 : opsFor false (x :: rest) = opsFor false rest := by
          simp [opsFor, List.filter_cons, hx]
        calc runTagged ab (x :: rest) = runTagged (applyTagged ab x) rest := rfl
          _ = ((applyTagged ab x).1.runOps (opsFor true rest),
               (applyTagged ab x).2.runOps (opsFor false rest)) := ih _
          _ = (ab.1.runOps (opsFor true (x :: rest)),
               ab.2.runOps (opsFor false (x :: rest))) := by
              rw [h1, h2, h3]
              rfl
      · have hx2 : x.1 = false := by
          revert hx
          cases x.1 <;> simp
        have h1 : applyTagged ab x = (ab.1, ab.2.applyOp x.2) := by
          unfold applyTagged
          rw [hx2]
          simp
        have h2 : opsFor true (x :: rest) = opsFor true rest := by
          simp [opsFor, List.filter_cons, hx2]
        have h3 : opsFor false (x :: rest) = x.2 :: opsFor false rest := by
          simp [opsFor, List.filter_cons, hx2]
        calc runTagged ab (x :: rest) = runTagged (applyTagged ab x) rest := rfl
          _ = ((applyTagged ab x).1.runOps (opsFor true rest),
               (applyTagged ab x).2.runOps (opsFor false rest)) := ih _
          _ = (ab.1.runOps (opsFor true (x :: rest)),
               ab.2.runOps (opsFor false (x :: rest))) := by
              rw [h1, h2, h3]
              rfl

/-- C10: the defaulted copy constructor gives value semantics: the copy's
entire state equals the original's at the moment of copy, and when the two
instances subsequently each process their own operations, each one's final
state is a function of its own operations only — the other instance's
activity never affects it. -/
theorem copy_value_semantics (m : Monkeypatcher) (ops : List (Bool × Op)) :
    m.copy = m ∧
    (runTagged (m, m.copy) ops).1 = m.runOps (opsFor true ops) ∧
    (runTagged (m, m.copy) ops).2 = m.runOps (opsFor false ops) := by
  have hc : m.copy = m := rfl
  refine ⟨hc, ?_, ?_⟩ <;> rw [runTagged_independent ops (m, m.copy)] <;> simp [hc]

end RR
